import Mathlib

/-!
Shallow embedding of `src/ghactions-core/src/actions/models.rs` (crate
`ghactions-core`): the `ActionYML` descriptor model, its serde-derived YAML
serialization/deserialization semantics, and the `load_action` / `write`
operations over an explicit filesystem model.

Modelling choices:
* YAML documents are modelled as a value tree `Yaml` (strings, booleans,
  sequences, string-keyed mappings).  Mappings are association lists; a
  Rust `HashMap` is modelled as an association list in a fixed iteration
  order (a determinization of the real map's arbitrary but fixed order).
* serde derive semantics: a struct serializes to a mapping with entries in
  field-declaration order; `#[serde(skip_serializing_if = "Option::is_none")]`
  fields are omitted when `None`; `#[serde(skip)]` fields are never emitted
  and, on deserialization, are filled with their `Default` value; `Option`
  fields absent from the document deserialize to `None`; non-`Option` fields
  without a default are mandatory; unknown keys are ignored.
* File paths are modelled as strings; `Path::parent` follows Rust's
  semantics on the paths used here (`None` on the empty path and on `"/"`,
  `Some ""` for a bare file name, otherwise the path with the last
  component dropped).
* The filesystem is an explicit state (`FS`): file contents (`none`
  standing for unparseable/truncated bytes), a set of directories, and
  oracle fields giving the outcome of the three fallible effects in
  `write` (`create_dir_all`, `OpenOptions::open`, `serde_yaml::to_writer`),
  mirroring that those collaborators can fail for external reasons.
* `path.parent().unwrap()` in `write` can panic; `write`'s result type
  (`WriteResult`) therefore has an explicit `panicked` outcome.
-/

namespace GhActions

/-- A YAML document value (the fragment the descriptor model uses):
strings, booleans, sequences, and string-keyed mappings. -/
inductive Yaml where
  | str (s : String) : Yaml
  | bool (b : Bool) : Yaml
  | seq (xs : List Yaml) : Yaml
  | map (kvs : List (String × Yaml)) : Yaml

/-- First-match lookup of a key in a YAML mapping's entry list. -/
def ylookup : List (String × Yaml) → String → Option Yaml
  | [], _ => none
  | (k, v) :: rest, key => if k = key then some v else ylookup rest key

/-- Whether a YAML value is a mapping containing the given key. -/
def Yaml.hasKey (y : Yaml) (key : String) : Bool :=
  match y with
  | .map kvs => (ylookup kvs key).isSome
  | _ => false

/-- `ActionInput` (models.rs lines 94-112): one input parameter declaration.
`type` carries `#[serde(skip)]` (never parsed nor emitted, defaulted to `""`);
the four `Option` fields carry `skip_serializing_if = "Option::is_none"`;
`deprecation_message` is renamed `deprecationMessage` in the document. -/
structure ActionInput where
  type : String := ""
  description : Option String := none
  required : Option Bool := none
  default : Option String := none
  deprecation_message : Option String := none
deriving DecidableEq

/-- `ActionOutput` (models.rs lines 115-120): one output parameter declaration. -/
structure ActionOutput where
  description : Option String := none
deriving DecidableEq

/-- `ActionBranding` (models.rs lines 125-131): both fields mandatory. -/
structure ActionBranding where
  color : String
  icon : String
deriving DecidableEq

/-- `ActionRuns` (models.rs lines 134-144): execution strategy.  `using` is
mandatory; `image` (a `PathBuf`, modelled as a string) and `args` are
optional and omitted from the document when `None`. -/
structure ActionRuns where
  «using» : String
  image : Option String := none
  args : Option (List String) := none
deriving DecidableEq

/-- `ActionYML` (models.rs lines 13-40): the root descriptor.  `path` carries
`#[serde(skip)]`; `name`, `description`, `author`, `branding` carry
`skip_serializing_if = "Option::is_none"`; `inputs`, `outputs` (Rust
`HashMap`s, modelled as association lists) and `runs` are plain fields,
hence mandatory on deserialization and always emitted. -/
structure ActionYML where
  path : Option String := none
  name : Option String := none
  description : Option String := none
  author : Option String := none
  branding : Option ActionBranding := none
  inputs : List (String × ActionInput) := []
  outputs : List (String × ActionOutput) := []
  runs : ActionRuns
deriving DecidableEq

/-- Modelled from the spec: the build-time package-name constant
(`env!("CARGO_PKG_NAME")`, the name of the containing crate) that seeds the
default descriptor's `name`; the crate manifest is not part of the sources,
only the constant's role is specified. -/
def CARGO_PKG_NAME : String := "ghactions-core"

/-- `ActionRuns::default` (models.rs lines 146-154). -/
def ActionRuns.default : ActionRuns :=
  { «using» := "docker", image := some "./Dockerfile", args := none }

/-- `ActionYML::default` (models.rs lines 42-55). -/
def ActionYML.default : ActionYML :=
  { path := none
    name := some CARGO_PKG_NAME
    description := none
    author := none
    branding := none
    inputs := []
    outputs := []
    runs := ActionRuns.default }

/-! ## Serialization (serde derive `Serialize`) -/

/-- Entry list contribution of an optional string field: omitted when absent. -/
def optStrEntry (key : String) : Option String → List (String × Yaml)
  | none => []
  | some s => [(key, .str s)]

/-- Entry list contribution of an optional boolean field: omitted when absent. -/
def optBoolEntry (key : String) : Option Bool → List (String × Yaml)
  | none => []
  | some b => [(key, .bool b)]

/-- Serialize one `ActionInput`: `type` is skipped, optional fields omitted
when absent, `deprecation_message` emitted under `deprecationMessage`. -/
def ActionInput.toYaml (i : ActionInput) : Yaml :=
  .map (optStrEntry "description" i.description
        ++ optBoolEntry "required" i.required
        ++ optStrEntry "default" i.default
        ++ optStrEntry "deprecationMessage" i.deprecation_message)

/-- Serialize one `ActionOutput`. -/
def ActionOutput.toYaml (o : ActionOutput) : Yaml :=
  .map (optStrEntry "description" o.description)

/-- Serialize an `ActionBranding`: both fields always emitted. -/
def ActionBranding.toYaml (b : ActionBranding) : Yaml :=
  .map [("color", .str b.color), ("icon", .str b.icon)]

/-- Entry list contribution of the optional `args` sequence. -/
def argsEntry : Option (List String) → List (String × Yaml)
  | none => []
  | some xs => [("args", .seq (xs.map .str))]

/-- Serialize an `ActionRuns`. -/
def ActionRuns.toYaml (r : ActionRuns) : Yaml :=
  .map ([("using", .str r.«using»)]
        ++ optStrEntry "image" r.image
        ++ argsEntry r.args)

/-- Serialize the `inputs` mapping entries, in iteration order. -/
def emitInputs : List (String × ActionInput) → List (String × Yaml)
  | [] => []
  | (k, i) :: rest => (k, i.toYaml) :: emitInputs rest

/-- Serialize the `outputs` mapping entries, in iteration order. -/
def emitOutputs : List (String × ActionOutput) → List (String × Yaml)
  | [] => []
  | (k, o) :: rest => (k, o.toYaml) :: emitOutputs rest

/-- The top-level entry list of a serialized descriptor: fields in
declaration order, `path` skipped, optional fields omitted when absent,
`inputs`/`outputs`/`runs` always present. -/
def ActionYML.topEntries (a : ActionYML) : List (String × Yaml) :=
  optStrEntry "name" a.name
  ++ optStrEntry "description" a.description
  ++ optStrEntry "author" a.author
  ++ (match a.branding with
      | none => []
      | some b => [("branding", b.toYaml)])
  ++ [("inputs", .map (emitInputs a.inputs))]
  ++ [("outputs", .map (emitOutputs a.outputs))]
  ++ [("runs", a.runs.toYaml)]

/-- Serialize a whole `ActionYML` descriptor (what
`serde_yaml::to_writer(fhandle, self)` emits). -/
def ActionYML.toYaml (a : ActionYML) : Yaml :=
  .map a.topEntries

/-! ## Deserialization (serde derive `Deserialize`) -/

/-- Deserialize a string value. -/
def parseStr : Yaml → Except String String
  | .str s => .ok s
  | _ => .error "invalid type: expected a string"

/-- Deserialize an optional string field from a mapping: absent key means
`none`; a present key must hold a string. -/
def parseOptStr (kvs : List (String × Yaml)) (key : String) :
    Except String (Option String) :=
  match ylookup kvs key with
  | none => .ok none
  | some v =>
    match parseStr v with
    | .ok s => .ok (some s)
    | .error e => .error e

/-- Deserialize an optional boolean field from a mapping. -/
def parseOptBool (kvs : List (String × Yaml)) (key : String) :
    Except String (Option Bool) :=
  match ylookup kvs key with
  | none => .ok none
  | some (.bool b) => .ok (some b)
  | some _ => .error "invalid type: expected a boolean"

/-- Deserialize an `ActionInput`: the four optional fields read from the
document, `type` filled with its skipped-field default `""`. -/
def ActionInput.parse (y : Yaml) : Except String ActionInput :=
  match y with
  | .map kvs =>
    match parseOptStr kvs "description", parseOptBool kvs "required",
          parseOptStr kvs "default", parseOptStr kvs "deprecationMessage" with
    | .ok d, .ok r, .ok df, .ok dm =>
      .ok { type := "", description := d, required := r, default := df,
            deprecation_message := dm }
    | .error e, _, _, _ => .error e
    | _, .error e, _, _ => .error e
    | _, _, .error e, _ => .error e
    | _, _, _, .error e => .error e
  | _ => .error "invalid type: expected a map"

/-- Deserialize an `ActionOutput`. -/
def ActionOutput.parse (y : Yaml) : Except String ActionOutput :=
  match y with
  | .map kvs =>
    match parseOptStr kvs "description" with
    | .ok d => .ok { description := d }
    | .error e => .error e
  | _ => .error "invalid type: expected a map"

/-- Deserialize an `ActionBranding`: both `color` and `icon` mandatory. -/
def ActionBranding.parse (y : Yaml) : Except String ActionBranding :=
  match y with
  | .map kvs =>
    match ylookup kvs "color" with
    | none => .error "missing field color"
    | some cv =>
      match parseStr cv with
      | .error e => .error e
      | .ok c =>
        match ylookup kvs "icon" with
        | none => .error "missing field icon"
        | some iv =>
          match parseStr iv with
          | .error e => .error e
          | .ok i => .ok { color := c, icon := i }
  | _ => .error "invalid type: expected a map"

/-- Deserialize a sequence of strings (the `args` value). -/
def parseStrList : List Yaml → Except String (List String)
  | [] => .ok []
  | y :: ys =>
    match parseStr y, parseStrList ys with
    | .ok s, .ok ss => .ok (s :: ss)
    | .error e, _ => .error e
    | _, .error e => .error e

/-- Deserialize an `ActionRuns`: `using` mandatory, `image` and `args`
optional. -/
def ActionRuns.parse (y : Yaml) : Except String ActionRuns :=
  match y with
  | .map kvs =>
    match ylookup kvs "using" with
    | none => .error "missing field using"
    | some uv =>
      match parseStr uv with
      | .error e => .error e
      | .ok u =>
        match parseOptStr kvs "image" with
        | .error e => .error e
        | .ok img =>
          match ylookup kvs "args" with
          | none => .ok { «using» := u, image := img, args := none }
          | some (.seq ys) =>
            match parseStrList ys with
            | .ok ss => .ok { «using» := u, image := img, args := some ss }
            | .error e => .error e
          | some _ => .error "invalid type: expected a sequence"
  | _ => .error "invalid type: expected a map"

/-- Deserialize the entries of an `inputs` mapping, in document order. -/
def parseInputEntries : List (String × Yaml) →
    Except String (List (String × ActionInput))
  | [] => .ok []
  | (k, v) :: rest =>
    match ActionInput.parse v, parseInputEntries rest with
    | .ok i, .ok is => .ok ((k, i) :: is)
    | .error e, _ => .error e
    | _, .error e => .error e

/-- Deserialize the entries of an `outputs` mapping, in document order. -/
def parseOutputEntries : List (String × Yaml) →
    Except String (List (String × ActionOutput))
  | [] => .ok []
  | (k, v) :: rest =>
    match ActionOutput.parse v, parseOutputEntries rest with
    | .ok o, .ok os => .ok ((k, o) :: os)
    | .error e, _ => .error e
    | _, .error e => .error e

/-- Deserialize the mandatory `inputs` field of the top-level mapping. -/
def parseInputsField (kvs : List (String × Yaml)) :
    Except String (List (String × ActionInput)) :=
  match ylookup kvs "inputs" with
  | none => .error "missing field inputs"
  | some (.map m) => parseInputEntries m
  | some _ => .error "invalid type: expected a map"

/-- Deserialize the mandatory `outputs` field of the top-level mapping. -/
def parseOutputsField (kvs : List (String × Yaml)) :
    Except String (List (String × ActionOutput)) :=
  match ylookup kvs "outputs" with
  | none => .error "missing field outputs"
  | some (.map m) => parseOutputEntries m
  | some _ => .error "invalid type: expected a map"

/-- Deserialize the optional `branding` field of the top-level mapping. -/
def parseBrandingField (kvs : List (String × Yaml)) :
    Except String (Option ActionBranding) :=
  match ylookup kvs "branding" with
  | none => .ok none
  | some v =>
    match ActionBranding.parse v with
    | .ok b => .ok (some b)
    | .error e => .error e

/-- Deserialize the mandatory `runs` field of the top-level mapping. -/
def parseRunsField (kvs : List (String × Yaml)) : Except String ActionRuns :=
  match ylookup kvs "runs" with
  | none => .error "missing field runs"
  | some v => ActionRuns.parse v

/-- Deserialize a whole `ActionYML` descriptor (what
`serde_yaml::from_reader` produces from a parsed document): `path` is
filled with its skipped-field default `none`, optional fields default to
`none` when absent, `inputs`, `outputs` and `runs` are mandatory. -/
def ActionYML.parse (y : Yaml) : Except String ActionYML :=
  match y with
  | .map kvs =>
    match parseOptStr kvs "name", parseOptStr kvs "description",
          parseOptStr kvs "author", parseBrandingField kvs with
    | .ok n, .ok d, .ok au, .ok b =>
      match parseInputsField kvs, parseOutputsField kvs, parseRunsField kvs with
      | .ok ins, .ok outs, .ok r =>
        .ok { path := none, name := n, description := d, author := au,
              branding := b, inputs := ins, outputs := outs, runs := r }
      | .error e, _, _ => .error e
      | _, .error e, _ => .error e
      | _, _, .error e => .error e
    | .error e, _, _, _ => .error e
    | _, .error e, _, _ => .error e
    | _, _, .error e, _ => .error e
    | _, _, _, .error e => .error e
  | _ => .error "invalid type: expected a map"

/-! ## Errors, paths, filesystem, and the two operations -/

/-- Modelled from the spec: the core error enumeration `ActionsError`
(defined in the crate's `errors` module, which is not among the sources).
Only the kinds the spec names for these operations are modelled: an I/O
error carrying the underlying failure message as text, and the
not-implemented kind returned by `write` without a target location. -/
inductive ActionsError where
  | IOError (msg : String) : ActionsError
  | NotImplemented : ActionsError
deriving DecidableEq

/-- Drop trailing `/` characters from a path string. -/
def rstripSlashes (s : String) : String :=
  String.mk ((s.data.reverse.dropWhile (fun c => c = '/')).reverse)

/-- Index of the last occurrence of a character in a character list. -/
def lastIdxOf (c : Char) : List Char → Option Nat
  | [] => none
  | x :: xs =>
    match lastIdxOf c xs with
    | some i => some (i + 1)
    | none => if x = c then some 0 else none

/-- Rust `Path::parent` on the path strings used here: `none` for the empty
path and for the root, `some ""` for a bare relative file name, otherwise
the path with its final component (and any trailing slashes) removed. -/
def parentPath (p : String) : Option String :=
  if p = "" then none
  else
    let q := rstripSlashes p
    if q = "" then none
    else
      match lastIdxOf '/' q.data with
      | none => some ""
      | some 0 => some "/"
      | some i => some (String.mk (q.data.take i))

/-- Fuel-bounded ancestor chain of a directory path: the path itself and
all its parents, stopping at the empty path (on which `create_dir_all` is
a no-op) or a parentless path. -/
def ancestorsAux : Nat → String → List String
  | 0, _ => []
  | _, "" => []
  | fuel + 1, p =>
    p :: (match parentPath p with
          | none => []
          | some q => ancestorsAux fuel q)

/-- All directories `std::fs::create_dir_all` creates for a path: the path
and its ancestor chain. -/
def ancestors (p : String) : List String :=
  ancestorsAux (p.length + 1) p

/-- Filesystem model: file contents by path (`none` contents stand for
bytes that do not parse as a document, e.g. a truncated file), the set of
directories, and oracle fields giving the outcome of the fallible external
effects used by `write` (`some msg` means the effect fails with that
message). -/
structure FS where
  files : List (String × Option Yaml) := []
  dirs : List String := []
  createDirResult : Option String := none
  openResult : Option String := none
  serializeResult : Option String := none

/-- Contents of the file at a path, if one exists. -/
def FS.getFile (fs : FS) (p : String) : Option (Option Yaml) :=
  match fs.files.find? (fun kv => kv.1 = p) with
  | some kv => some kv.2
  | none => none

/-- Replace or create the file at a path. -/
def setFileEntries : List (String × Option Yaml) → String → Option Yaml →
    List (String × Option Yaml)
  | [], p, c => [(p, c)]
  | (q, d) :: rest, p, c =>
    if q = p then (p, c) :: rest else (q, d) :: setFileEntries rest p c

/-- Store contents at a path. -/
def FS.setFile (fs : FS) (p : String) (c : Option Yaml) : FS :=
  { fs with files := setFileEntries fs.files p c }

/-- Rust `Path::exists`: true when the path names an existing file or
directory. -/
def FS.pathExists (fs : FS) (p : String) : Bool :=
  (fs.getFile p).isSome || fs.dirs.contains p

/-- Outcome of `ActionYML::write`: success with the returned path, an
`ActionsError`, or a panic (from `unwrap` on `None`); the first two carry
the filesystem state after the call. -/
inductive WriteResult where
  | ok (p : String) (fs : FS) : WriteResult
  | err (e : ActionsError) (fs : FS) : WriteResult
  | panicked : WriteResult

/-- The open-and-serialize tail of `ActionYML::write` (models.rs lines
75-86): open the target with create+truncate (truncation modelled as
storing unparseable contents), then `serde_yaml::to_writer`; failures of
either step are mapped to `ActionsError::IOError` with the underlying
message. -/
def writeFile (a : ActionYML) (path : String) (fs : FS) : WriteResult :=
  match fs.openResult with
  | some e => .err (.IOError e) fs
  | none =>
    let fs1 := fs.setFile path none
    match fs.serializeResult with
    | some e => .err (.IOError e) fs1
    | none => .ok path (fs1.setFile path (some a.toYaml))

/-- `ActionYML::write` (models.rs lines 67-90): requires `path` to be set
(else `ActionsError::NotImplemented`); when the target does not exist,
takes `path.parent().unwrap()` (panicking when `parent` is `None`) and
runs `create_dir_all` on it (failure mapped to `IOError`); then opens with
create+truncate and serializes. -/
def ActionYML.write (a : ActionYML) (fs : FS) : WriteResult :=
  match a.path with
  | none => .err .NotImplemented fs
  | some path =>
    if fs.pathExists path then writeFile a path fs
    else
      match parentPath path with
      | none => .panicked
      | some parent =>
        match fs.createDirResult with
        | some e => .err (.IOError e) fs
        | none => writeFile a path { fs with dirs := ancestors parent ++ fs.dirs }

/-- `ActionYML::load_action` (models.rs lines 59-64): open the file (an
I/O failure propagates as the boxed error), parse it with
`serde_yaml::from_reader`, then set `path` to the given path argument. -/
def ActionYML.load_action (path : String) (fs : FS) : Except String ActionYML :=
  match fs.getFile path with
  | none => .error "No such file or directory"
  | some none => .error "invalid document"
  | some (some y) =>
    match ActionYML.parse y with
    | .error e => .error e
    | .ok a => .ok { a with path := some path }

/-- Reset every input's in-memory-only `type` field to its skipped-field
default `""` (what a persistence round trip does to `inputs`). -/
def resetTypes : List (String × ActionInput) → List (String × ActionInput)
  | [] => []
  | (k, i) :: rest => (k, { i with type := "" }) :: resetTypes rest

/-- The filesystem state after a non-panicking `write`, if any. -/
def WriteResult.after : WriteResult → Option FS
  | .ok _ fs => some fs
  | .err _ fs => some fs
  | .panicked => none

/-! ## Sample data used to exercise the theorems on concrete inputs -/

/-- A concrete input declaration with a nonempty in-memory `type`. -/
def sampleInput : ActionInput :=
  { type := "String", description := some "an input", required := some true,
    default := none, deprecation_message := none }

/-- A concrete descriptor with its target location set. -/
def sampleDescriptor : ActionYML :=
  { path := some "dir/action.yml"
    name := some "demo"
    description := none
    author := none
    branding := some { color := "blue", icon := "anchor" }
    inputs := [("token", sampleInput)]
    outputs := [("result", { description := some "out" })]
    runs := ActionRuns.default }

/-- A document whose `branding` mapping has `color` but no `icon`. -/
def brandingOnlyColorDoc : Yaml :=
  .map [("branding", .map [("color", .str "red")]),
        ("inputs", .map []),
        ("outputs", .map []),
        ("runs", .map [("using", .str "docker")])]

/-- A document with no `inputs` key. -/
def missingInputsDoc : Yaml :=
  .map [("outputs", .map []),
        ("runs", .map [("using", .str "docker")])]

/-- A filesystem where the target file exists but the document emitter
fails with the message `"yaml emit failure"`. -/
def serializeFailFS : FS :=
  { files := [("action.yml", some (.map []))],
    serializeResult := some "yaml emit failure" }

/-! ## Helper lemmas about the filesystem model -/

/-- After storing contents at a path, looking that path up finds them. -/
theorem find_setFileEntries (l : List (String × Option Yaml)) (p : String)
    (c : Option Yaml) :
    (setFileEntries l p c).find? (fun kv => kv.1 = p) = some (p, c) := by
  induction l with
  | nil => simp [setFileEntries]
  | cons kv rest ih =>
    obtain ⟨q, d⟩ := kv
    by_cases h : q = p
    · subst h
      simp [setFileEntries]
    · simp [setFileEntries, h, List.find?, ih]

/-- `getFile` after `setFile` at the same path returns the new contents. -/
theorem getFile_setFile (fs : FS) (p : String) (c : Option Yaml) :
    (fs.setFile p c).getFile p = some c := by
  simp [FS.setFile, FS.getFile, find_setFileEntries]

/-- The open-and-serialize tail of `write` on a filesystem whose open and
serialize effects succeed: it stores the serialized descriptor and returns
the target path. -/
theorem writeFile_ok (a : ActionYML) (p : String) (fs : FS)
    (hopen : fs.openResult = none) (hser : fs.serializeResult = none) :
    writeFile a p fs = .ok p ((fs.setFile p none).setFile p (some a.toYaml)) := by
  simp [writeFile, hopen, hser]

/-- `setFile` leaves the oracle fields and directories unchanged. -/
theorem setFile_fields (fs : FS) (p : String) (c : Option Yaml) :
    (fs.setFile p c).openResult = fs.openResult
    ∧ (fs.setFile p c).serializeResult = fs.serializeResult
    ∧ (fs.setFile p c).dirs = fs.dirs := ⟨rfl, rfl, rfl⟩

/-! ## Round-trip lemmas for the serialization layer -/

/-- Deserializing a serialized input recovers it, with `type` reset to the
skipped-field default. -/
theorem input_roundtrip (i : ActionInput) :
    ActionInput.parse i.toYaml = .ok { i with type := "" } := by
  obtain ⟨t, d, r, df, dm⟩ := i
  cases d <;> cases r <;> cases df <;> cases dm <;> rfl

/-- Deserializing a serialized output recovers it. -/
theorem output_roundtrip (o : ActionOutput) :
    ActionOutput.parse o.toYaml = .ok o := by
  obtain ⟨d⟩ := o
  cases d <;> rfl

/-- Deserializing a serialized branding recovers it. -/
theorem branding_roundtrip (b : ActionBranding) :
    ActionBranding.parse b.toYaml = .ok b := rfl

/-- Deserializing a serialized string sequence recovers it. -/
theorem strList_roundtrip (xs : List String) :
    parseStrList (xs.map Yaml.str) = .ok xs := by
  induction xs with
  | nil => rfl
  | cons x xs ih => simp [parseStrList, parseStr, ih]

/-- Deserializing a serialized execution strategy recovers it. -/
theorem runs_roundtrip (r : ActionRuns) :
    ActionRuns.parse r.toYaml = .ok r := by
  obtain ⟨u, img, args⟩ := r
  cases img <;> cases args <;>
    simp [ActionRuns.toYaml, ActionRuns.parse, argsEntry, optStrEntry, ylookup,
          parseStr, parseOptStr, strList_roundtrip]

/-- Deserializing serialized input entries recovers them with each `type`
reset. -/
theorem inputEntries_roundtrip (l : List (String × ActionInput)) :
    parseInputEntries (emitInputs l) = .ok (resetTypes l) := by
  induction l with
  | nil => rfl
  | cons kv rest ih =>
    obtain ⟨k, i⟩ := kv
    simp [emitInputs, parseInputEntries, resetTypes, input_roundtrip i, ih]

/-- Deserializing serialized output entries recovers them. -/
theorem outputEntries_roundtrip (l : List (String × ActionOutput)) :
    parseOutputEntries (emitOutputs l) = .ok l := by
  induction l with
  | nil => rfl
  | cons kv rest ih =>
    obtain ⟨k, o⟩ := kv
    simp [emitOutputs, parseOutputEntries, output_roundtrip o, ih]

/-- Deserializing a serialized descriptor recovers it, with `path` set to
the skipped-field default and every input `type` reset. -/
theorem parse_toYaml (a : ActionYML) :
    ActionYML.parse a.toYaml =
      .ok { a with path := none, inputs := resetTypes a.inputs } := by
  obtain ⟨p, n, d, au, b, ins, outs, r⟩ := a
  cases n <;> cases d <;> cases au <;> cases b <;>
    simp [ActionYML.toYaml, ActionYML.topEntries, ActionYML.parse, optStrEntry,
          ylookup, parseOptStr, parseStr, parseBrandingField, branding_roundtrip,
          parseInputsField, parseOutputsField, parseRunsField,
          inputEntries_roundtrip, outputEntries_roundtrip, runs_roundtrip]

/-! ## Write happy path -/

/-- `write` on a descriptor with its path set succeeds whenever the open
and serialize effects succeed and either the target already exists or its
parent can be created; the serialized descriptor ends up stored at the
target path. -/
theorem write_ok (a : ActionYML) (p : String) (fs : FS)
    (hpath : a.path = some p) (hopen : fs.openResult = none)
    (hser : fs.serializeResult = none)
    (hok : fs.pathExists p = true ∨
           ((parentPath p).isSome = true ∧ fs.createDirResult = none)) :
    ∃ fs', a.write fs = WriteResult.ok p fs'
      ∧ fs'.getFile p = some (some a.toYaml) := by
  by_cases hex : fs.pathExists p = true
  · refine ⟨(fs.setFile p none).setFile p (some a.toYaml), ?_, getFile_setFile _ _ _⟩
    simp [ActionYML.write, hpath, hex, writeFile_ok a p fs hopen hser]
  · rcases hok with h | ⟨hpar, hdir⟩
    · exact absurd h hex
    · obtain ⟨par, hp⟩ := Option.isSome_iff_exists.mp hpar
      refine ⟨(({ fs with dirs := ancestors par ++ fs.dirs } : FS).setFile p none).setFile p
          (some a.toYaml), ?_, getFile_setFile _ _ _⟩
      have hex' : fs.pathExists p = false := by simpa using hex
      simp [ActionYML.write, hpath, hex', hp, hdir, writeFile, hopen, hser]

/-! ## Claim theorems -/

/-- C1: for a descriptor with its source location set, `write` followed by
`load_action` on the path `write` returns yields a descriptor equal to the
original in every field except that the in-memory `type` of each input is
reset to `""`; in particular `path` is preserved (re-derived from the load
path argument).  The hypotheses say the external open/serialize effects
succeed and the target is writable (it exists, or its parent can be
created). -/
theorem c1_write_load_roundtrip (a : ActionYML) (p : String) (fs : FS)
    (hpath : a.path = some p) (hopen : fs.openResult = none)
    (hser : fs.serializeResult = none)
    (hok : fs.pathExists p = true ∨
           ((parentPath p).isSome = true ∧ fs.createDirResult = none)) :
    ∃ fs', a.write fs = WriteResult.ok p fs'
      ∧ ActionYML.load_action p fs' =
          .ok { a with inputs := resetTypes a.inputs } := by
  obtain ⟨fs', hw, hg⟩ := write_ok a p fs hpath hopen hser hok
  refine ⟨fs', hw, ?_⟩
  simp only [ActionYML.load_action, hg, parse_toYaml]
  obtain ⟨q, n, d, au, b, ins, outs, r⟩ := a
  obtain rfl : q = some p := hpath
  rfl

/-- Witness for C1: the round trip evaluated on a concrete descriptor
(with branding, one typed input and one output) over an empty filesystem. -/
theorem c1_write_load_roundtrip_witness :
    ∃ fs', ActionYML.write sampleDescriptor {} = WriteResult.ok "dir/action.yml" fs'
      ∧ ActionYML.load_action "dir/action.yml" fs' =
          .ok { sampleDescriptor with inputs := resetTypes sampleDescriptor.inputs } :=
  c1_write_load_roundtrip sampleDescriptor "dir/action.yml" {} rfl rfl rfl
    (Or.inr ⟨rfl, rfl⟩)

/-- C6 counterexample: on a concrete descriptor and a filesystem whose
document emitter fails with message `"yaml emit failure"`, `write` returns
`ActionsError::IOError "yaml emit failure"` — the codec's serialization
error re-wrapped into the core's own error taxonomy, refuting the claim
that it is surfaced directly un-wrapped. -/
theorem c6_serialize_error_counterexample :
    ActionYML.write { ActionYML.default with path := some "action.yml" }
        serializeFailFS
      = WriteResult.err (ActionsError.IOError "yaml emit failure")
          (serializeFailFS.setFile "action.yml" none) := rfl

/-- C6 (amended): when serialization fails during `write`, the codec's
error is re-wrapped into the core's I/O error kind, carrying the codec's
message as text — it is not surfaced directly. -/
theorem c6_serialize_error_wrapped (a : ActionYML) (p : String) (fs : FS)
    (e : String) (hpath : a.path = some p) (hex : fs.pathExists p = true)
    (hopen : fs.openResult = none) (hser : fs.serializeResult = some e) :
    a.write fs = WriteResult.err (ActionsError.IOError e) (fs.setFile p none) := by
  simp [ActionYML.write, hpath, hex, writeFile, hopen, hser]

/-- Witness for the amended C6, at the counterexample's concrete input. -/
theorem c6_serialize_error_wrapped_witness :
    ActionYML.write { ActionYML.default with path := some "action.yml" }
        serializeFailFS
      = WriteResult.err (ActionsError.IOError "yaml emit failure")
          (serializeFailFS.setFile "action.yml" none) :=
  c6_serialize_error_wrapped { ActionYML.default with path := some "action.yml" }
    "action.yml" serializeFailFS "yaml emit failure" rfl rfl rfl rfl

/-- C2: for every descriptor, serialization omits every absent optional
field entirely from the emitted document (no key at all; in particular an
absent `author` produces no `author` key), and the `path`
(source-location) field and the `Input.type` (kind) field are never
emitted regardless of their values. -/
theorem c2_serialization_omission (a : ActionYML) (i : ActionInput)
    (o : ActionOutput) (r : ActionRuns) :
    a.toYaml.hasKey "path" = false
    ∧ (a.name = none → a.toYaml.hasKey "name" = false)
    ∧ (a.description = none → a.toYaml.hasKey "description" = false)
    ∧ (a.author = none → a.toYaml.hasKey "author" = false)
    ∧ (a.branding = none → a.toYaml.hasKey "branding" = false)
    ∧ i.toYaml.hasKey "type" = false
    ∧ (i.description = none → i.toYaml.hasKey "description" = false)
    ∧ (i.required = none → i.toYaml.hasKey "required" = false)
    ∧ (i.default = none → i.toYaml.hasKey "default" = false)
    ∧ (i.deprecation_message = none → i.toYaml.hasKey "deprecationMessage" = false)
    ∧ (o.description = none → o.toYaml.hasKey "description" = false)
    ∧ (r.image = none → r.toYaml.hasKey "image" = false)
    ∧ (r.args = none → r.toYaml.hasKey "args" = false) := by
  obtain ⟨p, n, d, au, b, ins, outs, ru⟩ := a
  obtain ⟨t, d1, r1, f1, m1⟩ := i
  obtain ⟨od⟩ := o
  obtain ⟨u2, g2, a2⟩ := r
  refine ⟨?_, ?_, ?_, ?_, ?_, ?_, ?_, ?_, ?_, ?_, ?_, ?_, ?_⟩
  · cases n <;> cases d <;> cases au <;> cases b <;> rfl
  · rintro rfl; cases d <;> cases au <;> cases b <;> rfl
  · rintro rfl; cases n <;> cases au <;> cases b <;> rfl
  · rintro rfl; cases n <;> cases d <;> cases b <;> rfl
  · rintro rfl; cases n <;> cases d <;> cases au <;> rfl
  · cases d1 <;> cases r1 <;> cases f1 <;> cases m1 <;> rfl
  · rintro rfl; cases r1 <;> cases f1 <;> cases m1 <;> rfl
  · rintro rfl; cases d1 <;> cases f1 <;> cases m1 <;> rfl
  · rintro rfl; cases d1 <;> cases r1 <;> cases m1 <;> rfl
  · rintro rfl; cases d1 <;> cases r1 <;> cases f1 <;> rfl
  · rintro rfl; rfl
  · rintro rfl; cases a2 <;> rfl
  · rintro rfl; cases g2 <;> rfl

/-- Witness for C2: the omission rules evaluated on concrete values — an
all-absent descriptor emits none of the optional keys, and a populated
input still emits no `type` key. -/
theorem c2_serialization_omission_witness :
    ({ runs := ActionRuns.default } : ActionYML).author = none
    ∧ ({ runs := ActionRuns.default } : ActionYML).toYaml.hasKey "author" = false
    ∧ sampleInput.toYaml.hasKey "type" = false :=
  ⟨rfl,
   (c2_serialization_omission { runs := ActionRuns.default } sampleInput
      {} ActionRuns.default).2.2.2.1 rfl,
   (c2_serialization_omission { runs := ActionRuns.default } sampleInput
      {} ActionRuns.default).2.2.2.2.2.1⟩

/-- C3: writing a descriptor whose `path` (source location) is absent
fails with `ActionsError::NotImplemented` and leaves the filesystem
untouched. -/
theorem c3_write_without_location (a : ActionYML) (fs : FS)
    (h : a.path = none) :
    a.write fs = WriteResult.err ActionsError.NotImplemented fs := by
  unfold ActionYML.write
  rw [h]

/-- Witness for C3: the default-constructed descriptor has no location and
its `write` fails with the not-implemented kind on an empty filesystem. -/
theorem c3_write_without_location_witness :
    ActionYML.default.path = none
    ∧ ActionYML.write ActionYML.default {} =
        WriteResult.err ActionsError.NotImplemented {} :=
  ⟨rfl, c3_write_without_location ActionYML.default {} rfl⟩

/-- C4: the default-constructed descriptor has `path` absent, `name`
seeded from the build-time package-name constant, `runs.using = "docker"`,
`runs.image = "./Dockerfile"`, `runs.args` absent, empty `inputs` and
`outputs` mappings, and `description`, `author`, `branding` absent. -/
theorem c4_default_descriptor :
    ActionYML.default.path = none
    ∧ ActionYML.default.name = some CARGO_PKG_NAME
    ∧ ActionYML.default.description = none
    ∧ ActionYML.default.author = none
    ∧ ActionYML.default.branding = none
    ∧ ActionYML.default.inputs = []
    ∧ ActionYML.default.outputs = []
    ∧ ActionYML.default.runs.«using» = "docker"
    ∧ ActionYML.default.runs.image = some "./Dockerfile"
    ∧ ActionYML.default.runs.args = none :=
  ⟨rfl, rfl, rfl, rfl, rfl, rfl, rfl, rfl, rfl, rfl⟩

/-- C9: there is a descriptor with its source location set on which
`write` panics instead of returning an error: when the stored path does
not exist on the filesystem and has no parent (the empty path),
`path.parent().unwrap()` is an unwrap of `None`. -/
theorem c9_write_panics_on_parentless_path :
    ({ ActionYML.default with path := some "" } : ActionYML).path.isSome = true
    ∧ ({} : FS).pathExists "" = false
    ∧ ActionYML.write { ActionYML.default with path := some "" } {} =
        WriteResult.panicked :=
  ⟨rfl, rfl, rfl⟩

/-- C5: a `branding` mapping lacking `icon` (or `color`) fails to
deserialize; a successfully deserialized branding came from a mapping with
both keys present; concretely, loading a document containing
`branding: { color: "red" }` fails. -/
theorem c5_branding_mandatory_pair :
    (∀ kvs, ylookup kvs "icon" = none →
        ∃ e, ActionBranding.parse (.map kvs) = .error e)
    ∧ (∀ kvs, ylookup kvs "color" = none →
        ∃ e, ActionBranding.parse (.map kvs) = .error e)
    ∧ (∀ y b, ActionBranding.parse y = .ok b →
        y.hasKey "color" = true ∧ y.hasKey "icon" = true)
    ∧ (∃ e, ActionYML.load_action "action.yml"
        { files := [("action.yml", some brandingOnlyColorDoc)] } = .error e) := by
  refine ⟨?_, ?_, ?_, ⟨_, rfl⟩⟩
  · intro kvs h
    rcases hc : ylookup kvs "color" with _ | cv
    · exact ⟨"missing field color", by simp [ActionBranding.parse, hc]⟩
    · rcases hs : parseStr cv with e | c
      · exact ⟨e, by simp [ActionBranding.parse, hc, hs]⟩
      · exact ⟨"missing field icon", by simp [ActionBranding.parse, hc, hs, h]⟩
  · intro kvs h
    exact ⟨"missing field color", by simp [ActionBranding.parse, h]⟩
  · intro y b h
    cases y with
    | str s => simp [ActionBranding.parse] at h
    | bool v => simp [ActionBranding.parse] at h
    | seq xs => simp [ActionBranding.parse] at h
    | map kvs =>
      rcases hc : ylookup kvs "color" with _ | cv
      · simp [ActionBranding.parse, hc] at h
      · rcases hs : parseStr cv with e | c
        · simp [ActionBranding.parse, hc, hs] at h
        · rcases hi : ylookup kvs "icon" with _ | iv
          · simp [ActionBranding.parse, hc, hs, hi] at h
          · exact ⟨by simp [Yaml.hasKey, hc], by simp [Yaml.hasKey, hi]⟩

/-- Witness for C5: the branding parser rejected on the concrete partial
branding mapping `{ color: "red" }`. -/
theorem c5_branding_mandatory_pair_witness :
    ∃ e, ActionBranding.parse (.map [("color", .str "red")]) = .error e :=
  c5_branding_mandatory_pair.1 [("color", .str "red")] rfl

/-- C7: when a descriptor's target path does not exist and has a parent,
a failing `create_dir_all` makes `write` fail with the core's I/O error
kind (filesystem untouched), and a succeeding one leaves the parent's full
ancestor chain among the directories of the resulting filesystem state. -/
theorem c7_directory_creation (a : ActionYML) (fs : FS) (p par : String)
    (hpath : a.path = some p) (hmiss : fs.pathExists p = false)
    (hpar : parentPath p = some par) :
    (∀ e, fs.createDirResult = some e →
        a.write fs = WriteResult.err (ActionsError.IOError e) fs)
    ∧ (fs.createDirResult = none →
        ∃ fs', (a.write fs).after = some fs'
          ∧ ∀ d ∈ ancestors par, d ∈ fs'.dirs) := by
  constructor
  · intro e he
    simp [ActionYML.write, hpath, hmiss, hpar, he]
  · intro hd
    rcases ho : fs.openResult with _ | e
    · rcases hs : fs.serializeResult with _ | e2
      · refine ⟨(({ fs with dirs := ancestors par ++ fs.dirs } : FS).setFile p
            none).setFile p (some a.toYaml), ?_,
            fun d hdm => List.mem_append_left _ hdm⟩
        simp [ActionYML.write, hpath, hmiss, hpar, hd, writeFile, ho, hs,
          WriteResult.after]
      · refine ⟨({ fs with dirs := ancestors par ++ fs.dirs } : FS).setFile p none,
            ?_, fun d hdm => List.mem_append_left _ hdm⟩
        simp [ActionYML.write, hpath, hmiss, hpar, hd, writeFile, ho, hs,
          WriteResult.after]
    · refine ⟨{ fs with dirs := ancestors par ++ fs.dirs }, ?_,
          fun d hdm => List.mem_append_left _ hdm⟩
      simp [ActionYML.write, hpath, hmiss, hpar, hd, writeFile, ho,
        WriteResult.after]

/-- Witness for C7: a failing directory creation surfaces as `IOError` on
a concrete descriptor, and on an empty filesystem the parent chain of
`"dir"` is created. -/
theorem c7_directory_creation_witness :
    (ActionYML.write sampleDescriptor { createDirResult := some "permission denied" }
        = WriteResult.err (ActionsError.IOError "permission denied")
            { createDirResult := some "permission denied" })
    ∧ ∃ fs', (ActionYML.write sampleDescriptor {}).after = some fs'
        ∧ ∀ d ∈ ancestors "dir", d ∈ fs'.dirs :=
  ⟨(c7_directory_creation sampleDescriptor
      { createDirResult := some "permission denied" } "dir/action.yml" "dir"
      rfl rfl rfl).1 "permission denied" rfl,
   (c7_directory_creation sampleDescriptor {} "dir/action.yml" "dir"
      rfl rfl rfl).2 rfl⟩

/-- C8: a successful `load_action` always sets the returned descriptor's
`path` to the path argument (independent of the document's contents), and
a successful `write` returns exactly the descriptor's stored path. -/
theorem c8_path_propagation :
    (∀ p fs a, ActionYML.load_action p fs = .ok a → a.path = some p)
    ∧ (∀ (a : ActionYML) fs p r fs2, a.path = some p →
        a.write fs = WriteResult.ok r fs2 → r = p) := by
  constructor
  · intro p fs a h
    unfold ActionYML.load_action at h
    rcases hg : fs.getFile p with _ | c
    · simp [hg] at h
    · rcases c with _ | y
      · simp [hg] at h
      · rcases hp : ActionYML.parse y with e | a2
        · simp [hg, hp] at h
        · simp only [hg, hp] at h
          simp only [Except.ok.injEq] at h
          subst h
          rfl
  · intro a fs p r fs2 hpath hw
    simp only [ActionYML.write, hpath] at hw
    by_cases hex : fs.pathExists p = true
    · rw [if_pos hex] at hw
      simp only [writeFile] at hw
      rcases ho : fs.openResult with _ | e <;> simp only [ho] at hw
      · rcases hs : fs.serializeResult with _ | e2 <;> simp only [hs] at hw
        · injection hw with h1 h2
          exact h1.symm
        · exact WriteResult.noConfusion hw
      · exact WriteResult.noConfusion hw
    · rw [if_neg hex] at hw
      rcases hpp : parentPath p with _ | par <;> simp only [hpp] at hw
      · exact WriteResult.noConfusion hw
      · rcases hd : fs.createDirResult with _ | e <;> simp only [hd] at hw
        · simp only [writeFile] at hw
          rcases ho : fs.openResult with _ | e <;> simp only [ho] at hw
          · rcases hs : fs.serializeResult with _ | e2 <;> simp only [hs] at hw
            · injection hw with h1 h2
              exact h1.symm
            · exact WriteResult.noConfusion hw
          · exact WriteResult.noConfusion hw
        · exact WriteResult.noConfusion hw

/-- Witness for C8: a concrete successful load sets `path` to the load
path, and a concrete successful write returns the stored path. -/
theorem c8_path_propagation_witness :
    ({ ActionYML.default with path := some "dir/action.yml" } : ActionYML).path
        = some "dir/action.yml"
    ∧ ("dir/action.yml" : String) = "dir/action.yml" :=
  ⟨c8_path_propagation.1 "dir/action.yml"
      { files := [("dir/action.yml", some ActionYML.default.toYaml)] }
      { ActionYML.default with path := some "dir/action.yml" } rfl,
   c8_path_propagation.2 sampleDescriptor {} "dir/action.yml" "dir/action.yml"
      { files := [("dir/action.yml", some sampleDescriptor.toYaml)],
        dirs := ["dir"] } rfl rfl⟩

/-- C10: a top-level document mapping with no `inputs` key (or no
`outputs` key) fails to deserialize — the two mapping fields are mandatory
— and serialization always emits both keys, even for empty mappings. -/
theorem c10_mandatory_inputs_outputs (a : ActionYML)
    (kvs : List (String × Yaml)) :
    (ylookup kvs "inputs" = none → ∃ e, ActionYML.parse (.map kvs) = .error e)
    ∧ (ylookup kvs "outputs" = none → ∃ e, ActionYML.parse (.map kvs) = .error e)
    ∧ a.toYaml.hasKey "inputs" = true
    ∧ a.toYaml.hasKey "outputs" = true := by
  refine ⟨?_, ?_, ?_, ?_⟩
  · intro h
    have hi : parseInputsField kvs = .error "missing field inputs" := by
      simp [parseInputsField, h]
    unfold ActionYML.parse
    rcases h1 : parseOptStr kvs "name" with e | n
    · exact ⟨e, by simp [h1]⟩
    rcases h2 : parseOptStr kvs "description" with e | d
    · exact ⟨e, by simp [h1, h2]⟩
    rcases h3 : parseOptStr kvs "author" with e | au
    · exact ⟨e, by simp [h1, h2, h3]⟩
    rcases h4 : parseBrandingField kvs with e | b
    · exact ⟨e, by simp [h1, h2, h3, h4]⟩
    exact ⟨"missing field inputs", by simp [h1, h2, h3, h4, hi]⟩
  · intro h
    have ho : parseOutputsField kvs = .error "missing field outputs" := by
      simp [parseOutputsField, h]
    unfold ActionYML.parse
    rcases h1 : parseOptStr kvs "name" with e | n
    · exact ⟨e, by simp [h1]⟩
    rcases h2 : parseOptStr kvs "description" with e | d
    · exact ⟨e, by simp [h1, h2]⟩
    rcases h3 : parseOptStr kvs "author" with e | au
    · exact ⟨e, by simp [h1, h2, h3]⟩
    rcases h4 : parseBrandingField kvs with e | b
    · exact ⟨e, by simp [h1, h2, h3, h4]⟩
    rcases h5 : parseInputsField kvs with e | ins
    · exact ⟨e, by simp [h1, h2, h3, h4, h5]⟩
    exact ⟨"missing field outputs", by simp [h1, h2, h3, h4, h5, ho]⟩
  · obtain ⟨p, n, d, au, b, ins, outs, r⟩ := a
    cases n <;> cases d <;> cases au <;> cases b <;> rfl
  · obtain ⟨p, n, d, au, b, ins, outs, r⟩ := a
    cases n <;> cases d <;> cases au <;> cases b <;> rfl

/-- Witness for C10: the concrete document lacking `inputs` fails to
deserialize, and the default (empty-mapping) descriptor still emits both
`inputs` and `outputs` keys. -/
theorem c10_mandatory_inputs_outputs_witness :
    (∃ e, ActionYML.parse missingInputsDoc = Except.error e)
    ∧ ActionYML.default.toYaml.hasKey "inputs" = true
    ∧ ActionYML.default.toYaml.hasKey "outputs" = true :=
  ⟨(c10_mandatory_inputs_outputs ActionYML.default
      [("outputs", .map []), ("runs", .map [("using", .str "docker")])]).1 rfl,
   (c10_mandatory_inputs_outputs ActionYML.default []).2.2.1,
   (c10_mandatory_inputs_outputs ActionYML.default []).2.2.2⟩

end GhActions
